import Mathlib

/-!
# Verification of the geo route-finder core (`src/geostream.py`)

Shallow embedding of the coordinate parser `limpiar_coordenadas`, the
haversine distance `calcular_distancia`, and the top-K ranking pipeline of
`main`, together with proofs of the specification's claims about them.

Modelling conventions:
* Python `float` values are modelled by `PyFloat`: an exact rational for
  finite doubles (IEEE rounding and overflow are idealised away, no claim
  here depends on rounding), plus the three non-finite values.
* Real-valued arithmetic inside the distance formula is modelled over `ℝ`.
* A Python function that returns `None` / raises-and-is-caught is modelled
  as an `Option`-returning function yielding `none`.
-/

/-- A Python `float` value: a finite double (modelled as an exact rational),
positive/negative infinity, or NaN. -/
inductive PyFloat where
  | finite : ℚ → PyFloat
  | inf : PyFloat
  | ninf : PyFloat
  | nan : PyFloat
deriving DecidableEq

/-- Whether a Python float value is finite (not `inf`, `-inf` or `nan`). -/
def PyFloat.esFinito : PyFloat → Bool
  | .finite _ => true
  | _ => false

/-- The characters Python's `float()` strips at both ends of its argument
(the C locale whitespace set). -/
def esEspacioPy (c : Char) : Bool :=
  c = ' ' || c = '\t' || c = '\n' || c = '\r' || c = '\x0b' || c = '\x0c'

/-- Strip leading and trailing Python whitespace from a character list,
as `float()` does to its argument. -/
def stripPy (l : List Char) : List Char :=
  ((l.dropWhile esEspacioPy).reverse.dropWhile esEspacioPy).reverse

/-- Consume a run of decimal digits, allowing a single `_` between two
digits (Python 3.6+ literal syntax).  Returns the accumulated value, the
number of digits consumed, and the unconsumed remainder. -/
def digitosPy : List Char → ℕ → ℕ → ℕ × ℕ × List Char
  | [], acc, n => (acc, n, [])
  | c :: cs, acc, n =>
    if c.isDigit then digitosPy cs (10 * acc + (c.toNat - 48)) (n + 1)
    else if c == '_' && n != 0 && cs.head?.any Char.isDigit then digitosPy cs acc n
    else (acc, n, c :: cs)

/-- Parse the optional exponent part following a (lowercased) mantissa of
value `m / 10 ^ f`; the whole remainder must be consumed.  The rational is
assembled with `mkRat` in one step. -/
def exponentePy (m : ℕ) (f : ℕ) : List Char → Option ℚ
  | [] => some (mkRat m (10 ^ f))
  | 'e' :: r =>
    let (neg, r2) : Bool × List Char :=
      match r with
      | '+' :: t => (false, t)
      | '-' :: t => (true, t)
      | t => (false, t)
    let (e, n, rest) := digitosPy r2 0 0
    if n = 0 || !rest.isEmpty then none
    else if neg then some (mkRat m (10 ^ (f + e)))
    else some (mkRat (m * 10 ^ e) (10 ^ f))
  | _ => none

/-- Parse an unsigned, lowercased Python float literal body
(`digits [. digits] [e [sign] digits]`, at least one mantissa digit,
nothing left over). -/
def numeroPy (l : List Char) : Option ℚ :=
  let (ip, ni, r1) := digitosPy l 0 0
  match r1 with
  | '.' :: r2 =>
    let (fp, nf, r3) := digitosPy r2 0 0
    if ni + nf = 0 then none
    else exponentePy (ip * 10 ^ nf + fp) nf r3
  | _ => if ni = 0 then none else exponentePy ip 0 r1

/-- Python's `float(str)` conversion: strip surrounding whitespace, read an
optional sign, accept `inf`/`infinity`/`nan` case-insensitively, otherwise
parse a decimal literal; `none` models the `ValueError` raise. -/
def flotantePy (l : List Char) : Option PyFloat :=
  let s := stripPy l
  let (neg, s2) : Bool × List Char :=
    match s with
    | '+' :: t => (false, t)
    | '-' :: t => (true, t)
    | t => (false, t)
  let low := s2.map Char.toLower
  if low = ['i', 'n', 'f'] || low = ['i', 'n', 'f', 'i', 'n', 'i', 't', 'y'] then
    some (if neg then PyFloat.ninf else PyFloat.inf)
  else if low = ['n', 'a', 'n'] then some PyFloat.nan
  else
    match numeroPy low with
    | some q => some (PyFloat.finite (if neg then -q else q))
    | none => none

/-- Python's `str.split(',')`: split at every comma, keeping empty tokens;
always returns at least one token. -/
def separarComas : List Char → List (List Char)
  | [] => [[]]
  | c :: cs =>
    if c = ',' then [] :: separarComas cs
    else
      match separarComas cs with
      | [] => [[c]]
      | t :: ts => (c :: t) :: ts

/-- The token-pair selection of `limpiar_coordenadas` (source lines 18-45),
acting on the space-stripped string: comma branch takes the first two
`split(',')` tokens; the no-comma branch splits at the second `-` when the
string starts with `-` (falling back to index 0, which yields an empty
first token), or at the first `-` otherwise; `none` when no `-` exists. -/
def coordsSplit (g : List Char) : Option (List Char × List Char) :=
  if g.contains ',' then
    match separarComas g with
    | t0 :: t1 :: _ => some (t0, t1)
    | _ => none
  else
    match g with
    | '-' :: rest =>
      match rest.findIdx? (fun c => c = '-') with
      | some i => some (g.take (i + 1), g.drop (i + 1))
      | none => some ([], g)
    | _ =>
      match g.findIdx? (fun c => c = '-') with
      | some i => some (g.take i, g.drop i)
      | none => none

/-- Body of `limpiar_coordenadas` after the space removal of line 16:
choose the two tokens, convert both with `float`; any failure (no split
point, or either conversion raising) is caught and yields `None`. -/
def limpiarNucleo (g : List Char) : Option (PyFloat × PyFloat) :=
  match coordsSplit g with
  | none => none
  | some (t0, t1) =>
    match flotantePy t0, flotantePy t1 with
    | some a, some b => some (a, b)
    | _, _ => none

/-- `limpiar_coordenadas` (source lines 9-50): `str(geo).replace(' ', '')`
removes every space character (only U+0020), then the token split and the
two `float` conversions run on the result. -/
def limpiar_coordenadas (geo : String) : Option (PyFloat × PyFloat) :=
  limpiarNucleo (geo.toList.filter (fun c => c ≠ ' '))

/-- The space-only removal performed on line 16 of the source
(`str(geo).replace(' ', '')`), as a `String → String` function. -/
def quitarEspacios (s : String) : String := ⟨s.toList.filter (fun c => c ≠ ' ')⟩

/-- Modelled from the spec: removal of *every* whitespace character
("Whitespace anywhere in the string must be stripped before analysis").
Stated only to compare the spec's wording with the code's space-only
`replace(' ', '')`. -/
def quitarBlancos (s : String) : String := ⟨s.toList.filter (fun c => !esEspacioPy c)⟩

/-- `math.radians`: degrees to radians. -/
noncomputable def radianes (x : ℝ) : ℝ := x * (Real.pi / 180)

/-- The intermediate value `a` of `calcular_distancia` (source lines 63-66):
`sin²(dlat/2) + cos(radians(lat1))·cos(radians(lat2))·sin²(dlon/2)`.
Evaluated over exact reals, where it provably lies in `[0, 1]`
(`haversineH_bounds`).  In the binary64 arithmetic of the source, rounding
can push the computed value slightly above `1` for finite near-antipodal
inputs (e.g. `(-39.92819900876361, -174.4753977161929)` against
`(39.92819947492438, 5.524602385905355)` gives `a = 1 + 2⁻⁵²`), a
behaviour this exact-real model cannot exhibit. -/
noncomputable def haversineH (lat1 lon1 lat2 lon2 : ℝ) : ℝ :=
  Real.sin (radianes (lat2 - lat1) / 2) ^ 2 +
    Real.cos (radianes lat1) * Real.cos (radianes lat2) *
      Real.sin (radianes (lon2 - lon1) / 2) ^ 2

/-- C's `atan2(y, x)` over the reals. -/
noncomputable def atan2 (y x : ℝ) : ℝ :=
  if 0 < x then Real.arctan (y / x)
  else if x < 0 then
    if 0 ≤ y then Real.arctan (y / x) + Real.pi else Real.arctan (y / x) - Real.pi
  else if 0 < y then Real.pi / 2
  else if y < 0 then -(Real.pi / 2)
  else 0

/-- Body of `calcular_distancia` for finite inputs (source lines 60-68).
`math.sqrt` raises a `ValueError` (caught, yielding the `np.nan` sentinel,
modelled as `none`) exactly when its argument is negative, i.e. when `a`
falls outside `[0, 1]`; there is no clamping in the source. -/
noncomputable def distanciaFinita (lat1 lon1 lat2 lon2 : ℝ) : Option ℝ :=
  let a := haversineH lat1 lon1 lat2 lon2
  if a < 0 ∨ 1 < a then none
  else some (6371 * (2 * atan2 (Real.sqrt a) (Real.sqrt (1 - a))))

/-- `calcular_distancia` (source lines 52-71).  Floats are modelled as exact
reals; a non-finite component propagates (as `nan`, or as the `ValueError`
raised by `math.sin(±inf)`) to the caught-exception branch, so the function
returns the `np.nan` sentinel — modelled as `none` — in every such case. -/
noncomputable def calcular_distancia :
    PyFloat × PyFloat → PyFloat × PyFloat → Option ℝ
  | (.finite lat1, .finite lon1), (.finite lat2, .finite lon2) =>
    distanciaFinita lat1 lon1 lat2 lon2
  | _, _ => none

/-- The rows surviving `dropna(subset=['Coordenadas_Limpias'])` (source
lines 85-88): each row is opaque metadata (`α`) plus its raw GEO string. -/
def filasParseadas {α : Type} (rows : List (α × String)) :
    List (α × (PyFloat × PyFloat)) :=
  rows.filterMap fun r => (limpiar_coordenadas r.2).map fun c => (r.1, c)

/-- The rows surviving `dropna(subset=['Distancia'])` (source lines 106-111),
paired with their computed distance. -/
noncomputable def filasValidas {α : Type} (target : PyFloat × PyFloat)
    (rows : List (α × String)) : List (α × ℝ) :=
  (filasParseadas rows).filterMap fun r =>
    (calcular_distancia target r.2).map fun d => (r.1, d)

/-- `sort_values('Distancia').head(k)` (source line 111; `main` uses
`k = 5`).  The sort is modelled as a sort by non-decreasing distance; the
source's pandas default `kind='quicksort'` guarantees the ordering but NOT
stability, so no tie-order theorem is derived from this model. -/
noncomputable def cercanos {α : Type} (target : PyFloat × PyFloat)
    (rows : List (α × String)) (k : ℕ) : List (α × ℝ) :=
  ((filasValidas target rows).mergeSort fun x y => decide (x.2 ≤ y.2)).take k

/-! ## Helper lemmas -/

theorem sin_half_sq (x : ℝ) : Real.sin (x / 2) ^ 2 = (1 - Real.cos x) / 2 := by
  have h := Real.cos_two_mul (x / 2)
  have h2 : 2 * (x / 2) = x := by ring
  rw [h2] at h
  have h3 := Real.sin_sq_add_cos_sq (x / 2)
  linarith

theorem radianes_sub (a b : ℝ) : radianes (a - b) = radianes a - radianes b := by
  unfold radianes; ring

/-- The haversine intermediate value lies in `[0, 1]` for all inputs *in
exact real arithmetic*; only binary64 rounding (outside this model) can
make the source's unclamped computation exceed `1` and hit the
`math.sqrt` domain error. -/
theorem haversineH_bounds (lat1 lon1 lat2 lon2 : ℝ) :
    0 ≤ haversineH lat1 lon1 lat2 lon2 ∧ haversineH lat1 lon1 lat2 lon2 ≤ 1 := by
  unfold haversineH
  rw [radianes_sub lat2 lat1, sin_half_sq, sin_half_sq, Real.cos_sub]
  set s1 := Real.sin (radianes lat1)
  set s2 := Real.sin (radianes lat2)
  set c1 := Real.cos (radianes lat1)
  set c2 := Real.cos (radianes lat2)
  set t := Real.cos (radianes (lon2 - lon1))
  have h1 : s1 ^ 2 + c1 ^ 2 = 1 := Real.sin_sq_add_cos_sq _
  have h2 : s2 ^ 2 + c2 ^ 2 = 1 := Real.sin_sq_add_cos_sq _
  have ht1 : -1 ≤ t := Real.neg_one_le_cos _
  have ht2 : t ≤ 1 := Real.cos_le_one _
  constructor
  · nlinarith [sq_nonneg (s1 - s2), mul_nonneg (by linarith : (0:ℝ) ≤ 1 + t) (sq_nonneg (c1 - c2)),
      mul_nonneg (by linarith : (0:ℝ) ≤ 1 - t) (sq_nonneg (c1 + c2))]
  · nlinarith [sq_nonneg (s1 + s2), mul_nonneg (by linarith : (0:ℝ) ≤ 1 + t) (sq_nonneg (c1 + c2)),
      mul_nonneg (by linarith : (0:ℝ) ≤ 1 - t) (sq_nonneg (c1 - c2))]

/-- In this exact-real model the guard of `distanciaFinita` never fires
and the result is always `some` (not so in the source's binary64
arithmetic, where the guard models a reachable domain error). -/
theorem distanciaFinita_eq_some (lat1 lon1 lat2 lon2 : ℝ) :
    distanciaFinita lat1 lon1 lat2 lon2 =
      some (6371 * (2 * atan2 (Real.sqrt (haversineH lat1 lon1 lat2 lon2))
        (Real.sqrt (1 - haversineH lat1 lon1 lat2 lon2)))) := by
  obtain ⟨hl, hr⟩ := haversineH_bounds lat1 lon1 lat2 lon2
  unfold distanciaFinita
  rw [if_neg]
  push_neg
  exact ⟨hl, hr⟩

/-- C8: for every finite point `p`, the distance from `p` to itself is
exactly `0.0`. -/
theorem distancia_identidad (lat lon : ℚ) :
    calcular_distancia (.finite lat, .finite lon) (.finite lat, .finite lon) = some 0 := by
  have h0 : haversineH lat lon lat lon = 0 := by
    simp [haversineH, radianes]
  have h1 : calcular_distancia (.finite lat, .finite lon) (.finite lat, .finite lon) =
      distanciaFinita lat lon lat lon := by
    simp [calcular_distancia]
  rw [h1, distanciaFinita_eq_some, h0]
  norm_num [atan2, Real.arctan_zero]

theorem map_fst_filterMap_sublist {α β γ : Type} (l : List (α × β)) (f : β → Option γ) :
    List.Sublist ((l.filterMap fun r => (f r.2).map fun c => (r.1, c)).map Prod.fst)
      (l.map Prod.fst) := by
  induction l with
  | nil => simp
  | cons x xs ih =>
    cases h : f x.2 with
    | none => simpa [List.filterMap_cons, h] using ih.cons x.1
    | some c => simpa [List.filterMap_cons, h] using ih.cons₂ x.1

/-- C5: the ranking pipeline drops every record with an undefined distance
and returns exactly `min k (valid count)` rows, pairwise ordered by
non-decreasing distance, drawn without repetition from the valid rows
(so distinct input records never appear twice). -/
theorem cercanos_spec {α : Type} (target : PyFloat × PyFloat)
    (rows : List (α × String)) (k : ℕ) :
    (cercanos target rows k).length = min k (filasValidas target rows).length ∧
    (cercanos target rows k).Pairwise (fun x y => x.2 ≤ y.2) ∧
    List.Subperm (cercanos target rows k) (filasValidas target rows) ∧
    ((rows.map Prod.fst).Nodup → ((cercanos target rows k).map Prod.fst).Nodup) := by
  have htrans : ∀ a b c : α × ℝ, (decide (a.2 ≤ b.2)) → (decide (b.2 ≤ c.2)) →
      (decide (a.2 ≤ c.2)) :=
    fun a b c h1 h2 => decide_eq_true (le_trans (of_decide_eq_true h1) (of_decide_eq_true h2))
  have htotal : ∀ a b : α × ℝ, (decide (a.2 ≤ b.2) || decide (b.2 ≤ a.2)) = true := by
    intro a b
    rcases le_total a.2 b.2 with h | h <;> simp [h]
  have hsubperm : List.Subperm (cercanos target rows k) (filasValidas target rows) := by
    unfold cercanos
    exact ((List.take_sublist k _).subperm).trans (List.mergeSort_perm _ _).subperm
  refine ⟨?_, ?_, hsubperm, ?_⟩
  · unfold cercanos
    rw [List.length_take, List.length_mergeSort]
  · have hs := List.sorted_mergeSort htrans htotal (filasValidas target rows)
    have hp := hs.sublist (List.take_sublist k _)
    exact hp.imp fun h => of_decide_eq_true h
  · intro hnd
    have hv : ((filasValidas target rows).map Prod.fst).Nodup := by
      have h1 : ((filasParseadas rows).map Prod.fst).Nodup :=
        hnd.sublist (map_fst_filterMap_sublist rows limpiar_coordenadas)
      exact h1.sublist (map_fst_filterMap_sublist (filasParseadas rows) (calcular_distancia target))
    obtain ⟨l, hperm, hsub⟩ := hsubperm
    have hln : (l.map Prod.fst).Nodup := hv.sublist (hsub.map Prod.fst)
    exact ((hperm.map Prod.fst).nodup_iff).mp hln

theorem separarComas_sin_coma (g : List Char) (h : g.contains ',' = false) :
    separarComas g = [g] := by
  induction g with
  | nil => rfl
  | cons c cs ih =>
    simp only [List.contains_cons, Bool.or_eq_false_iff] at h
    rw [separarComas, if_neg (Ne.symm (by simpa using h.1)), ih h.2]

theorem limpiarNucleo_coma (g t0 t1 : List Char) (resto : List (List Char))
    (h : separarComas g = t0 :: t1 :: resto) :
    limpiarNucleo g =
      match flotantePy t0, flotantePy t1 with
      | some a, some b => some (a, b)
      | _, _ => none := by
  have hc : g.contains ',' = true := by
    cases hx : g.contains ',' with
    | true => rfl
    | false => rw [separarComas_sin_coma g hx] at h; cases h
  have hcs : coordsSplit g = some (t0, t1) := by
    unfold coordsSplit
    rw [if_pos hc, h]
  unfold limpiarNucleo
  rw [hcs]

theorem contains_filter_eq_false {l : List Char} {p : Char → Bool} {a : Char}
    (h : l.contains a = false) : (l.filter p).contains a = false := by
  have h1 : a ∉ l := by simpa using h
  have h2 : a ∉ l.filter p := fun hm => h1 (List.mem_of_mem_filter hm)
  simpa using h2

theorem coordsSplit_sin_separador (g : List Char) (hc : g.contains ',' = false)
    (hm : g.contains '-' = false) : coordsSplit g = none := by
  have hmem : ('-' : Char) ∉ g := by simpa using hm
  have hfind : g.findIdx? (fun c => c = '-') = none := by
    rw [List.findIdx?_eq_none_iff]
    intro x hx
    simp only [decide_eq_false_iff_not]
    rintro rfl
    exact hmem hx
  unfold coordsSplit
  rw [if_neg (by simpa using hc)]
  split
  · simp_all
  · rw [hfind]

theorem coordsSplit_fallback (rest : List Char)
    (hc : (('-' :: rest : List Char)).contains ',' = false)
    (hm : rest.contains '-' = false) :
    coordsSplit ('-' :: rest) = some ([], '-' :: rest) := by
  have hfind : rest.findIdx? (fun c => c = '-') = none := by
    rw [List.findIdx?_eq_none_iff]
    intro x hx
    simp only [decide_eq_false_iff_not]
    rintro rfl
    exact (by simpa using hm : ('-' : Char) ∉ rest) hx
  unfold coordsSplit
  rw [if_neg (by simpa using hc)]
  simp [hfind]

theorem limpiar_quitarEspacios (geo : String) :
    limpiar_coordenadas geo = limpiar_coordenadas (quitarEspacios geo) := by
  unfold limpiar_coordenadas
  congr 1
  rw [show (quitarEspacios geo).toList = geo.toList.filter (fun c => c ≠ ' ') from rfl,
    List.filter_filter]
  simp

/-- C2 counterexample: a string with two commas does NOT fail; the code
splits on every comma and converts the first two tokens, so
`"1,2,3"` parses to the point `(1.0, 2.0)` instead of a `ParseFailure`. -/
theorem limpiar_multicoma_counterexample :
    limpiar_coordenadas "1,2,3" = some (.finite 1, .finite 2) := by decide

/-- C2 amended: for a raw string containing a comma, the code splits on
*every* comma, converts only the first two tokens with `float` and ignores
the rest; it fails exactly when either of those two conversions fails. -/
theorem limpiar_coma_primeros_dos (geo : String) (t0 t1 : List Char)
    (resto : List (List Char))
    (h : separarComas (geo.toList.filter (fun c => c ≠ ' ')) = t0 :: t1 :: resto) :
    limpiar_coordenadas geo =
      match flotantePy t0, flotantePy t1 with
      | some a, some b => some (a, b)
      | _, _ => none := by
  unfold limpiar_coordenadas
  exact limpiarNucleo_coma _ t0 t1 resto h

theorem limpiar_coma_primeros_dos_witness :
    separarComas ("1,2,3".toList.filter (fun c => c ≠ ' ')) = [['1'], ['2'], ['3']] ∧
    limpiar_coordenadas "1,2,3" =
      match flotantePy ['1'], flotantePy ['2'] with
      | some a, some b => some (a, b)
      | _, _ => none :=
  ⟨by decide, limpiar_coma_primeros_dos "1,2,3" ['1'] ['2'] [['3']] (by decide)⟩

/-- C3 counterexample: a token that parses as a non-finite float does not
make the parse fail — `"inf,1"` yields a point with a non-finite first
component. -/
theorem limpiar_no_finito_counterexample :
    limpiar_coordenadas "inf,1" = some (PyFloat.inf, PyFloat.finite 1) ∧
    PyFloat.inf.esFinito = false := by decide

/-- C3 amended: the parser performs no finiteness check; `inf`, `-infinity`
and `nan` tokens convert successfully and their non-finite values appear
unchanged in the returned point. -/
theorem limpiar_sin_chequeo_finito :
    limpiar_coordenadas "inf,1" = some (PyFloat.inf, PyFloat.finite 1) ∧
    limpiar_coordenadas "nan,1" = some (PyFloat.nan, PyFloat.finite 1) ∧
    limpiar_coordenadas "1,-infinity" = some (PyFloat.finite 1, PyFloat.ninf) ∧
    (PyFloat.inf.esFinito || PyFloat.nan.esFinito || PyFloat.ninf.esFinito) = false := by
  decide

/-- C6: with no comma, the parse splits at the sign structure — at the
second `-` when the string starts with `-`, at the first `-` otherwise —
so both spec examples produce exactly the stated points. -/
theorem limpiar_sin_coma_signos :
    limpiar_coordenadas "-13.262719-64.052359" =
      some (.finite (mkRat (-13262719) 1000000), .finite (mkRat (-64052359) 1000000)) ∧
    limpiar_coordenadas "13.262719-64.052359" =
      some (.finite (mkRat 13262719 1000000), .finite (mkRat (-64052359) 1000000)) := by
  decide

/-- C7 counterexample: only the space character is removed before analysis
(`replace(' ', '')`); removing *all* whitespace changes the result, e.g.
for `"1\t2,3"` (tab kept, first token `"1\t2"` fails `float`). -/
theorem limpiar_tab_counterexample :
    quitarBlancos "1\t2,3" = "12,3" ∧
    limpiar_coordenadas "1\t2,3" = none ∧
    limpiar_coordenadas "12,3" = some (.finite 12, .finite 3) ∧
    limpiar_coordenadas "1\t2,3" ≠ limpiar_coordenadas (quitarBlancos "1\t2,3") := by
  decide

/-- C7 amended: the parse is insensitive to *space* characters (the only
whitespace the code strips): stripping spaces first never changes the
result, and both spec examples yield `(-17.85, -63.19)`. -/
theorem limpiar_insensible_espacios :
    (∀ geo : String, limpiar_coordenadas geo = limpiar_coordenadas (quitarEspacios geo)) ∧
    limpiar_coordenadas "-17.85, -63.19" =
      some (.finite (mkRat (-1785) 100), .finite (mkRat (-6319) 100)) ∧
    limpiar_coordenadas "-17.85,-63.19" =
      some (.finite (mkRat (-1785) 100), .finite (mkRat (-6319) 100)) :=
  ⟨limpiar_quitarEspacios, by decide, by decide⟩

/-- C9: malformed inputs fail cleanly — `"abc"`, `""` and `"12.3"` all
yield `None`, and in general any raw string with no comma and no minus
sign anywhere has no split point and yields `None`. -/
theorem limpiar_malformado_none :
    limpiar_coordenadas "abc" = none ∧
    limpiar_coordenadas "" = none ∧
    limpiar_coordenadas "12.3" = none ∧
    ∀ geo : String, geo.toList.contains ',' = false →
      geo.toList.contains '-' = false → limpiar_coordenadas geo = none := by
  refine ⟨by decide, by decide, by decide, fun geo h1 h2 => ?_⟩
  unfold limpiar_coordenadas limpiarNucleo
  rw [coordsSplit_sin_separador _ (contains_filter_eq_false h1) (contains_filter_eq_false h2)]

theorem limpiar_malformado_none_witness :
    "9.9".toList.contains ',' = false ∧ "9.9".toList.contains '-' = false ∧
    limpiar_coordenadas "9.9" = none :=
  ⟨by decide, by decide, limpiar_malformado_none.2.2.2 "9.9" (by decide) (by decide)⟩

/-- C10: a no-comma string that (after space removal) starts with `-` and
has no second `-` takes the fallback split at index 0, producing an empty
first token whose `float` conversion fails, so the parse yields `None`. -/
theorem limpiar_fallback_guion_none (geo : String)
    (h1 : (geo.toList.filter (fun c => c ≠ ' ')).contains ',' = false)
    (h2 : (geo.toList.filter (fun c => c ≠ ' ')).head? = some '-')
    (h3 : (geo.toList.filter (fun c => c ≠ ' ')).tail.contains '-' = false) :
    flotantePy [] = none ∧ limpiar_coordenadas geo = none := by
  refine ⟨by decide, ?_⟩
  unfold limpiar_coordenadas limpiarNucleo
  obtain ⟨rest, hg⟩ : ∃ rest, geo.toList.filter (fun c => c ≠ ' ') = '-' :: rest := by
    cases hgl : geo.toList.filter (fun c => c ≠ ' ') with
    | nil => rw [hgl] at h2; cases h2
    | cons c cs =>
      rw [hgl, List.head?_cons, Option.some.injEq] at h2
      exact ⟨cs, by rw [h2]⟩
  rw [hg]
  rw [hg] at h1 h3
  rw [coordsSplit_fallback rest h1 (by simpa using h3)]
  rfl

theorem limpiar_fallback_guion_none_witness :
    ("-12.3".toList.filter (fun c => c ≠ ' ')).contains ',' = false ∧
    ("-12.3".toList.filter (fun c => c ≠ ' ')).head? = some '-' ∧
    ("-12.3".toList.filter (fun c => c ≠ ' ')).tail.contains '-' = false ∧
    limpiar_coordenadas "-12.3" = none :=
  ⟨by decide, by decide, by decide,
    (limpiar_fallback_guion_none "-12.3" (by decide) (by decide) (by decide)).2⟩

theorem cercanos_spec_witness :
    (([((0 : ℕ), "1,2"), (1, "3,4")] : List (ℕ × String)).map Prod.fst).Nodup ∧
    ((cercanos (PyFloat.finite 0, PyFloat.finite 0) [((0 : ℕ), "1,2"), (1, "3,4")] 5).map
      Prod.fst).Nodup :=
  ⟨by decide,
    (cercanos_spec (PyFloat.finite 0, PyFloat.finite 0) [((0 : ℕ), "1,2"), (1, "3,4")] 5).2.2.2
      (by decide)⟩
